import Mathlib

/-!
Shallow embedding of the dlt-examples repository (src/dataos_utils.py,
src/iceberg_writer.py, src/pipeline.py).

Python exceptions are modelled with `Except`; the process environment is a
function from variable names to optional values; the connection dictionaries
of this repository are string-to-string maps assembled from environment
variables, so they are modelled as association lists; the external catalog
client (pyiceberg) is abstracted by the outcome of its
`create_table_if_not_exists` call and by a trace of the method invocations
`write` performs on it.
-/

set_option autoImplicit false

namespace DltIceberg

/-- Errors raised by the code: `valueError` carries the message of a Python
`ValueError`; `attributeError` models invoking a method on `None`. -/
inductive Err where
  | valueError (msg : String)
  | attributeError (msg : String)
deriving DecidableEq

/-- Process environment: `os.getenv` yields the value, or `none` when the
variable is unset. -/
abbrev Env : Type := String → Option String

/-- Embedding of `dataos_utils.get_env_var`: fetch an environment variable,
raising a `ValueError` naming the key when it is absent and no default is
provided. -/
def get_env_var (env : Env) (key : String) (dflt : Option String) : Except Err String :=
  match env key, dflt with
  | some v, _ => .ok v
  | none, some d => .ok d
  | none, none =>
    .error (.valueError ("Environment variable '" ++ key ++ "' is required but not set."))

/-- Connection dictionary. Every connection this repository builds maps string
keys to string values (all entries come from environment variables). -/
abbrev Connection : Type := List (String × String)

/-- Python `dict.get(key)`: the first binding for the key wins. -/
def Connection.get (c : Connection) (k : String) : Option String :=
  match c with
  | [] => none
  | (k2, v) :: rest => if k2 = k then some v else Connection.get rest k

/-- Python `dict.get(key, dflt)`. -/
def Connection.getD (c : Connection) (k dflt : String) : String :=
  (Connection.get c k).getD dflt

/-- Python `{**a, **b}`: entries of `b` override entries of `a`, so `b` comes
first for lookup. -/
def Connection.merge (a b : Connection) : Connection :=
  b ++ a

/-- Embedding of `dataos_utils.get_iceberg_destination_config`: the four
required destination variables plus `TABLE` and `NAMESPACE` with defaults. -/
def get_iceberg_destination_config (env : Env) : Except Err Connection := do
  let cp ← get_env_var env "DESTINATION__ICEBERG__CONFIG__CLOUD_PROVIDER" none
  let cat ← get_env_var env "DESTINATION__ICEBERG__CONFIG__CATALOG" none
  let wp ← get_env_var env "DESTINATION__ICEBERG__CONFIG__WAREHOUSE_PATH" none
  let mu ← get_env_var env "DESTINATION__ICEBERG__CONFIG__METASTORE_URL" none
  let tbl ← get_env_var env "DESTINATION__ICEBERG__CONFIG__TABLE" (some "dlt_default_table")
  let ns ← get_env_var env "DESTINATION__ICEBERG__CONFIG__NAMESPACE" (some "dlt_default_namespace")
  pure [("cloud_provider", cp), ("catalog", cat), ("warehouse_path", wp),
        ("metastore_url", mu), ("table", tbl), ("namespace", ns)]

/-- Embedding of `dataos_utils.get_iceberg_credentials`. The gcs branch stores
the project id under the literal key "project-is", exactly as in the source. -/
def get_iceberg_credentials (cloud_provider : String) (env : Env) : Except Err Connection :=
  if cloud_provider = "gcs" then do
    let pid ← get_env_var env "GCS__CREDENTIALS__PROJECT_ID" none
    let sfp ← get_env_var env "GCS__CREDENTIALS__SECRET_FILE_PATH" none
    pure [("project-is", pid), ("secret_file_path", sfp)]
  else if cloud_provider = "abfss" then do
    let es ← get_env_var env "ABFSS__CREDENTIALS__AZUREENDPOINTSUFFIX" none
    let an ← get_env_var env "ABFSS__CREDENTIALS__AZURESTORAGEACCOUNTNAME" none
    let ak ← get_env_var env "ABFSS__CREDENTIALS__AZURESTORAGEACCOUNTKEY" none
    pure [("azureendpointsuffix", es), ("azurestorageaccountname", an),
          ("azurestorageaccountkey", ak)]
  else if cloud_provider = "s3" then do
    let aki ← get_env_var env "S3__CREDENTIALS__AWS_ACCESS_KEY_ID" none
    let sak ← get_env_var env "S3__CREDENTIALS__AWS_SECRET_ACCESS_KEY" none
    let rg ← get_env_var env "S3__CREDENTIALS__REGION" (some "ap-south-1")
    pure [("aws_access_key_id", aki), ("aws_secret_access_key", sak), ("region", rg)]
  else
    pure []

/-- Abstract handle for the credentials object returned by the external
google-auth library after the forced refresh. -/
structure Credentials where
  handle : String
deriving DecidableEq

/-- Scope argument handed to the external credential loader: either the default
scope list substituted by `get_access_token`, or the raw value found in the
connection dictionary. -/
inductive ScopeArg where
  | list (l : List String)
  | raw (s : String)
deriving DecidableEq

/-- External effect `google.auth.load_credentials_from_file` followed by
`credentials.refresh`, abstracted as a function supplied by the caller. -/
abbrev CredLoader : Type := String → ScopeArg → Credentials

/-- Embedding of `dataos_utils.get_access_token`: substitutes the default
cloud-platform scope when `scopes` is None or empty, then delegates to the
external credential library and returns the refreshed credentials object. -/
def get_access_token (loadCredentials : CredLoader) (service_account_file_path : String)
    (scopes : Option String) : Credentials :=
  match scopes with
  | none =>
    loadCredentials service_account_file_path
      (.list ["https://www.googleapis.com/auth/cloud-platform"])
  | some s =>
    if s.length < 1 then
      loadCredentials service_account_file_path
        (.list ["https://www.googleapis.com/auth/cloud-platform"])
    else
      loadCredentials service_account_file_path (.raw s)

/-- Value stored in the catalog-client parameter set passed to `load_catalog`. -/
inductive PVal where
  | str (s : String)
  | int (n : Int)
  | cred (c : Credentials)
deriving DecidableEq

/-- Embedding of `IcebergWriter.__init__`: branches on `cloud_provider` and
builds the provider-specific parameter set handed to `load_catalog`. `now` is
the integer the code truncates `datetime.datetime.now().timestamp()` to. -/
def IcebergWriter.init (conn : Connection) (now : Int) (loadCredentials : CredLoader) :
    Except Err (List (String × PVal)) :=
  let cloud_provider := Connection.get conn "cloud_provider"
  if cloud_provider = some "s3" then
    .ok [("uri", .str (Connection.getD conn "metastore_url" "")),
         ("s3.access-key-id", .str (Connection.getD conn "aws_access_key_id" "")),
         ("s3.secret-access-key", .str (Connection.getD conn "aws_secret_access_key" "")),
         ("s3.region", .str (Connection.getD conn "region" "ap-south-1"))]
  else if cloud_provider = some "abfss" then
    .ok [("py-io-impl", .str "pyiceberg.io.fsspec.FsspecFileIO"),
         ("adls.account-name", .str (Connection.getD conn "azurestorageaccountname" "")),
         ("adls.account-key", .str (Connection.getD conn "azurestorageaccountkey" "")),
         ("uri", .str (Connection.getD conn "metastore_url" ""))]
  else if cloud_provider = some "gcs" then
    let secret_file_path := Connection.getD conn "secret_file_path" ""
    let scopes := Connection.get conn "scopes"
    let access_token := get_access_token loadCredentials secret_file_path scopes
    let token_expiry := now + 10000
    .ok [("py-io-impl", .str "pyiceberg.io.fsspec.FsspecFileIO"),
         ("uri", .str (Connection.getD conn "metastore_url" "")),
         ("gcs.project-id", .str (Connection.getD conn "project-id" "")),
         ("gcs.default-bucket-location", .str (Connection.getD conn "warehouse_path" "")),
         ("gcs.oauth2.token-expires-at", .int token_expiry),
         ("gcs.oauth2.token", .cred access_token)]
  else
    .error (.valueError
      "Unsupported cloud provider. Supported providers are 's3', 'abfss', and 'gcp'.")

/-- Embedding of `Writer.create_writer`: membership test of the provider value
in the supported list, then delegation to the `IcebergWriter` constructor. -/
def create_writer (conn : Connection) (now : Int) (loadCredentials : CredLoader) :
    Except Err (List (String × PVal)) :=
  if Connection.get conn "cloud_provider" = some "s3"
      ∨ Connection.get conn "cloud_provider" = some "abfss"
      ∨ Connection.get conn "cloud_provider" = some "gcs" then
    IcebergWriter.init conn now loadCredentials
  else
    .error (.valueError
      "Unsupported cloud provider. Supported providers are 's3', 'abfss' and 'gcs'.")

/-- Columnar table: what the code observes of a `pyarrow.Table` is its row
count (`len`) and its schema. -/
structure PyArrowTable where
  numRows : Nat
  schema : String
deriving DecidableEq

/-- Input handed to `write`: either an actual pyarrow table, or any other
Python object (which fails the isinstance check). -/
inductive InputData where
  | pyarrow (t : PyArrowTable)
  | nonArrow (descr : String)
deriving DecidableEq

/-- Handle to an Iceberg table returned by the external catalog. -/
structure IcebergTable where
  ident : String
deriving DecidableEq

/-- Catalog interactions performed by `write`, in order: the
`create_table_if_not_exists` call, and the append/overwrite method invocation
together with its receiver (`none` when table creation failed and was
swallowed) and the data written. -/
inductive Action where
  | createCall (dest : String)
  | appendCall (target : Option IcebergTable) (data : PyArrowTable)
  | overwriteCall (target : Option IcebergTable) (data : PyArrowTable)
deriving DecidableEq

/-- Whether an action is an append method invocation. -/
def Action.isAppend : Action → Bool
  | .appendCall _ _ => true
  | _ => false

/-- Whether an action is an overwrite method invocation. -/
def Action.isOverwrite : Action → Bool
  | .overwriteCall _ _ => true
  | _ => false

/-- Embedding of `IcebergWriter.validate_data`: rejects non-tables, then empty
tables, and returns True otherwise. -/
def validate_data (input_data : InputData) : Except Err Bool :=
  match input_data with
  | .nonArrow _ => .error (.valueError "Input data must be a PyArrowTable.")
  | .pyarrow t =>
    if t.numRows = 0 then .error (.valueError "Input data cannot be empty.")
    else .ok true

/-- Embedding of `IcebergWriter.create_table_from_pyarrow`: the catalog call is
abstracted by `createOutcome`; any exception it raises is caught, logged and
swallowed, so the function falls off the end and returns None. -/
def create_table_from_pyarrow (createOutcome : Except String IcebergTable) :
    Option IcebergTable :=
  match createOutcome with
  | .ok t => some t
  | .error _ => none

/-- Equality of `Except` values is decidable when it is on both sides. -/
instance {ε α : Type} [DecidableEq ε] [DecidableEq α] : DecidableEq (Except ε α) := fun a b =>
  match a, b with
  | .ok x, .ok y => decidable_of_iff (x = y) (by simp)
  | .error x, .error y => decidable_of_iff (x = y) (by simp)
  | .ok _, .error _ => isFalse (by simp)
  | .error _, .ok _ => isFalse (by simp)

/-- Result of a `write` call: the catalog interactions it performed, in order,
and whether it returned normally or raised. -/
structure WriteResult where
  actions : List Action
  outcome : Except Err Unit
deriving DecidableEq

/-- Embedding of `IcebergWriter.write`. Validation happens first; the catalog
creation call is issued before the mode is examined; invoking `.append` or
`.overwrite` on the None left by a swallowed creation failure raises an
AttributeError, as in Python. The case of a non-table that passed validation
is unreachable, since `validate_data` rejects non-tables. -/
def write (input_data : InputData) (dest : String) (mode : String)
    (createOutcome : Except String IcebergTable) : WriteResult :=
  match validate_data input_data, input_data with
  | .error e, _ => ⟨[], .error e⟩
  | .ok _, .nonArrow _ => ⟨[], .error (.valueError "Input data must be a PyArrowTable.")⟩
  | .ok _, .pyarrow t =>
    let iceberg_table := create_table_from_pyarrow createOutcome
    if mode = "append" then
      match iceberg_table with
      | some tb => ⟨[.createCall dest, .appendCall (some tb) t], .ok ()⟩
      | none => ⟨[.createCall dest, .appendCall none t],
                 .error (.attributeError "'NoneType' object has no attribute 'append'")⟩
    else if mode = "overwrite" then
      match iceberg_table with
      | some tb => ⟨[.createCall dest, .overwriteCall (some tb) t], .ok ()⟩
      | none => ⟨[.createCall dest, .overwriteCall none t],
                 .error (.attributeError "'NoneType' object has no attribute 'overwrite'")⟩
    else
      ⟨[.createCall dest], .error (.valueError ("Unsupported write mode: " ++ mode))⟩

/-- Embedding of the connection assembly at the start of
`pipeline.iceberg_insert`: destination config merged with provider
credentials, the latter taking precedence. -/
def buildIcebergConnection (env : Env) : Except Err Connection := do
  let destination_config ← get_iceberg_destination_config env
  let cloud_provider := Connection.getD destination_config "cloud_provider" ""
  let destination_credentials ← get_iceberg_credentials cloud_provider env
  pure (Connection.merge destination_config destination_credentials)

/-- Python `str()` of an optional string, as an f-string renders a value that
may be None. -/
def optStr (o : Option String) : String :=
  o.getD "None"

/-- Embedding of `pipeline.iceberg_insert`: re-derives config and credentials
from the environment, constructs the writer, computes the destination
identifier and performs one overwrite-mode write of the batch. Returns the
destination identifier and the write result. -/
def iceberg_insert (env : Env) (now : Int) (loadCredentials : CredLoader)
    (resources : PyArrowTable) (dataName : Option String)
    (createOutcome : Except String IcebergTable) : Except Err (String × WriteResult) := do
  let conn ← buildIcebergConnection env
  let _ ← IcebergWriter.init conn now loadCredentials
  let tv := Connection.get conn "table"
  let table_name : Option String :=
    if tv = some "dlt_default_table" then some (dataName.getD "") else tv
  let ns := Connection.get conn "namespace"
  let full_table_path := optStr ns ++ "." ++ optStr table_name
  pure (full_table_path, write (.pyarrow resources) full_table_path "overwrite" createOutcome)

/-- Embedding of the collection-name lookup in
`pipeline.load_select_collection_db`: `os.getenv` is followed directly by
`.split(",")`, so an unset variable raises an AttributeError on None rather
than a configuration error. -/
def collection_names_from_env (env : Env) : Except Err (List String) :=
  match env "SOURCES__MONGODB__COLLECTION_NAMES" with
  | some v => .ok (v.splitOn ",")
  | none => .error (.attributeError "'NoneType' object has no attribute 'split'")

/-- Contents of the destination Iceberg table, as the list of batches it
currently holds. -/
abbrev TableContents : Type := List PyArrowTable

/-- Meaning of one executed catalog interaction on the destination table's
contents, following the external library's semantics: append adds the batch,
overwrite replaces the whole contents with the batch; an invocation whose
receiver was None changed nothing (it raised instead). -/
def execAction (contents : TableContents) : Action → TableContents
  | .createCall _ => contents
  | .appendCall none _ => contents
  | .appendCall (some _) d => contents ++ [d]
  | .overwriteCall none _ => contents
  | .overwriteCall (some _) d => [d]

/-- Effect of a trace of catalog interactions on the table contents. -/
def execTrace (contents : TableContents) (actions : List Action) : TableContents :=
  actions.foldl execAction contents

/-- Required environment variables of `get_iceberg_destination_config`: those
fetched through `get_env_var` without a default. -/
def destRequiredVars : List String :=
  ["DESTINATION__ICEBERG__CONFIG__CLOUD_PROVIDER",
   "DESTINATION__ICEBERG__CONFIG__CATALOG",
   "DESTINATION__ICEBERG__CONFIG__WAREHOUSE_PATH",
   "DESTINATION__ICEBERG__CONFIG__METASTORE_URL"]

/-- Required environment variables of `get_iceberg_credentials` per provider:
those fetched through `get_env_var` without a default. -/
def credsRequiredVars (cloud_provider : String) : List String :=
  if cloud_provider = "gcs" then
    ["GCS__CREDENTIALS__PROJECT_ID", "GCS__CREDENTIALS__SECRET_FILE_PATH"]
  else if cloud_provider = "abfss" then
    ["ABFSS__CREDENTIALS__AZUREENDPOINTSUFFIX",
     "ABFSS__CREDENTIALS__AZURESTORAGEACCOUNTNAME",
     "ABFSS__CREDENTIALS__AZURESTORAGEACCOUNTKEY"]
  else if cloud_provider = "s3" then
    ["S3__CREDENTIALS__AWS_ACCESS_KEY_ID", "S3__CREDENTIALS__AWS_SECRET_ACCESS_KEY"]
  else
    []

/-- Message `get_env_var` raises for a missing required variable; it names the
variable. -/
def requiredMsg (key : String) : String :=
  "Environment variable '" ++ key ++ "' is required but not set."

/-- Helper: `get_env_var` with a default never raises; it returns the
environment value or the default. -/
theorem get_env_var_with_default (env : Env) (k d : String) :
    get_env_var env k (some d) = .ok ((env k).getD d) := by
  cases h : env k <;> simp [get_env_var, h]

/-- C1: for every destination string, when the catalog's
`create_table_if_not_exists` raises any exception,
`create_table_from_pyarrow` swallows it and returns None, and `write` then
invokes the append/overwrite step on that None receiver instead of a table. -/
theorem c1_create_failure_swallowed (dest : String) (t : PyArrowTable) (exc : String)
    (h : 0 < t.numRows) :
    create_table_from_pyarrow (.error exc) = none ∧
    (write (.pyarrow t) dest "append" (.error exc)).actions
      = [.createCall dest, .appendCall none t] ∧
    (write (.pyarrow t) dest "overwrite" (.error exc)).actions
      = [.createCall dest, .overwriteCall none t] := by
  have h0 : ¬ t.numRows = 0 := Nat.pos_iff_ne_zero.mp h
  refine ⟨rfl, ?_, ?_⟩ <;> simp [write, validate_data, create_table_from_pyarrow, h0]

/-- Witness for C1 at a concrete one-row table and exception. -/
theorem c1_create_failure_swallowed_witness :
    0 < (PyArrowTable.mk 1 "sch").numRows ∧
    (create_table_from_pyarrow (.error "boom") = none ∧
     (write (.pyarrow (PyArrowTable.mk 1 "sch")) "ns.tbl" "append" (.error "boom")).actions
       = [.createCall "ns.tbl", .appendCall none (PyArrowTable.mk 1 "sch")] ∧
     (write (.pyarrow (PyArrowTable.mk 1 "sch")) "ns.tbl" "overwrite" (.error "boom")).actions
       = [.createCall "ns.tbl", .overwriteCall none (PyArrowTable.mk 1 "sch")]) :=
  ⟨by decide, c1_create_failure_swallowed "ns.tbl" (PyArrowTable.mk 1 "sch") "boom" (by decide)⟩

/-- C4: `write` on a non-columnar input or on an empty table raises a
ValueError and performs no catalog interaction at all. -/
theorem c4_invalid_input_no_interaction (dest mode : String)
    (co : Except String IcebergTable) (t : PyArrowTable) (d : String)
    (h : t.numRows = 0) :
    write (.nonArrow d) dest mode co
      = ⟨[], .error (.valueError "Input data must be a PyArrowTable.")⟩ ∧
    write (.pyarrow t) dest mode co
      = ⟨[], .error (.valueError "Input data cannot be empty.")⟩ := by
  refine ⟨rfl, ?_⟩
  simp [write, validate_data, h]

/-- Witness for C4 at a concrete empty table and non-table input. -/
theorem c4_invalid_input_no_interaction_witness :
    (PyArrowTable.mk 0 "sch").numRows = 0 ∧
    (write (.nonArrow "a dict") "ns.tbl" "append" (.error "x")
       = ⟨[], .error (.valueError "Input data must be a PyArrowTable.")⟩ ∧
     write (.pyarrow (PyArrowTable.mk 0 "sch")) "ns.tbl" "append" (.error "x")
       = ⟨[], .error (.valueError "Input data cannot be empty.")⟩) :=
  ⟨rfl, c4_invalid_input_no_interaction "ns.tbl" "append" (.error "x")
    (PyArrowTable.mk 0 "sch") "a dict" rfl⟩

/-- C5: `write` on a non-empty table with a mode outside append/overwrite
raises a ValueError reporting the unsupported mode. -/
theorem c5_unsupported_mode (dest mode : String) (co : Except String IcebergTable)
    (t : PyArrowTable) (h : 0 < t.numRows)
    (hm1 : mode ≠ "append") (hm2 : mode ≠ "overwrite") :
    (write (.pyarrow t) dest mode co).outcome
      = .error (.valueError ("Unsupported write mode: " ++ mode)) := by
  have h0 : ¬ t.numRows = 0 := Nat.pos_iff_ne_zero.mp h
  simp [write, validate_data, h0, hm1, hm2]

/-- Witness for C5 at mode "upsert". -/
theorem c5_unsupported_mode_witness :
    (write (.pyarrow (PyArrowTable.mk 1 "sch")) "ns.tbl" "upsert" (.ok (IcebergTable.mk "tb"))).outcome
      = .error (.valueError ("Unsupported write mode: " ++ "upsert")) :=
  c5_unsupported_mode "ns.tbl" "upsert" (.ok (IcebergTable.mk "tb"))
    (PyArrowTable.mk 1 "sch") (by decide) (by decide) (by decide)

/-- Example of a complete s3 connection dictionary, as the pipeline would
assemble it from a full set of environment variables. -/
def s3ConnExample : Connection :=
  [("aws_access_key_id", "AK"), ("aws_secret_access_key", "SK"), ("region", "us-east-1"),
   ("cloud_provider", "s3"), ("catalog", "rest"), ("warehouse_path", "s3://wh"),
   ("metastore_url", "http://ms"), ("table", "tbl"), ("namespace", "ns")]

/-- Example credential loader standing in for the external google-auth calls. -/
def credLoaderExample : CredLoader :=
  fun _ _ => Credentials.mk "tok"

/-- C2: for each supported provider, construction builds a catalog-client
parameter set whose keys are exactly that provider's required keys, in the
order the source lists them, and none of another provider's keys. -/
theorem c2_provider_key_sets (conn : Connection) (now : Int) (load : CredLoader) :
    (Connection.get conn "cloud_provider" = some "s3" →
      (IcebergWriter.init conn now load).map (fun ps => ps.map Prod.fst)
        = .ok ["uri", "s3.access-key-id", "s3.secret-access-key", "s3.region"]) ∧
    (Connection.get conn "cloud_provider" = some "abfss" →
      (IcebergWriter.init conn now load).map (fun ps => ps.map Prod.fst)
        = .ok ["py-io-impl", "adls.account-name", "adls.account-key", "uri"]) ∧
    (Connection.get conn "cloud_provider" = some "gcs" →
      (IcebergWriter.init conn now load).map (fun ps => ps.map Prod.fst)
        = .ok ["py-io-impl", "uri", "gcs.project-id", "gcs.default-bucket-location",
               "gcs.oauth2.token-expires-at", "gcs.oauth2.token"]) := by
  refine ⟨fun h => ?_, fun h => ?_, fun h => ?_⟩ <;> simp [IcebergWriter.init, h, Except.map]

/-- Witness for C2 at the complete s3 connection example. -/
theorem c2_provider_key_sets_witness :
    Connection.get s3ConnExample "cloud_provider" = some "s3" ∧
    (IcebergWriter.init s3ConnExample 0 credLoaderExample).map (fun ps => ps.map Prod.fst)
      = .ok ["uri", "s3.access-key-id", "s3.secret-access-key", "s3.region"] :=
  ⟨by decide, (c2_provider_key_sets s3ConnExample 0 credLoaderExample).1 (by decide)⟩

/-- C6: a cloud_provider outside the supported three makes both
`Writer.create_writer` and the `IcebergWriter` constructor raise a
ValueError. -/
theorem c6_unsupported_provider (conn : Connection) (now : Int) (load : CredLoader)
    (h1 : Connection.get conn "cloud_provider" ≠ some "s3")
    (h2 : Connection.get conn "cloud_provider" ≠ some "abfss")
    (h3 : Connection.get conn "cloud_provider" ≠ some "gcs") :
    create_writer conn now load
      = .error (.valueError
          "Unsupported cloud provider. Supported providers are 's3', 'abfss' and 'gcs'.") ∧
    IcebergWriter.init conn now load
      = .error (.valueError
          "Unsupported cloud provider. Supported providers are 's3', 'abfss', and 'gcp'.") := by
  constructor
  · simp [create_writer, h1, h2, h3]
  · simp [IcebergWriter.init, h1, h2, h3]

/-- Witness for C6 at provider "azure". -/
theorem c6_unsupported_provider_witness :
    create_writer [("cloud_provider", "azure")] 0 credLoaderExample
      = .error (.valueError
          "Unsupported cloud provider. Supported providers are 's3', 'abfss' and 'gcs'.") ∧
    IcebergWriter.init [("cloud_provider", "azure")] 0 credLoaderExample
      = .error (.valueError
          "Unsupported cloud provider. Supported providers are 's3', 'abfss', and 'gcp'.") :=
  c6_unsupported_provider [("cloud_provider", "azure")] 0 credLoaderExample
    (by decide) (by decide) (by decide)

/-- C7: for gcs the constructor succeeds, obtains credentials through the
external credential library (`get_access_token` over the connection's secret
file path and scopes) and sets `gcs.oauth2.token-expires-at` to the current
timestamp plus the fixed offset 10000. -/
theorem c7_gcs_token_expiry (conn : Connection) (now : Int) (load : CredLoader)
    (h : Connection.get conn "cloud_provider" = some "gcs") :
    ∃ ps, IcebergWriter.init conn now load = .ok ps ∧
      ("gcs.oauth2.token-expires-at", PVal.int (now + 10000)) ∈ ps ∧
      ("gcs.oauth2.token",
        PVal.cred (get_access_token load (Connection.getD conn "secret_file_path" "")
          (Connection.get conn "scopes"))) ∈ ps := by
  refine ⟨[("py-io-impl", .str "pyiceberg.io.fsspec.FsspecFileIO"),
           ("uri", .str (Connection.getD conn "metastore_url" "")),
           ("gcs.project-id", .str (Connection.getD conn "project-id" "")),
           ("gcs.default-bucket-location", .str (Connection.getD conn "warehouse_path" "")),
           ("gcs.oauth2.token-expires-at", .int (now + 10000)),
           ("gcs.oauth2.token",
             .cred (get_access_token load (Connection.getD conn "secret_file_path" "")
               (Connection.get conn "scopes")))], ?_, by simp, by simp⟩
  simp [IcebergWriter.init, h]

/-- Witness for C7 at a concrete gcs connection and timestamp 1700000000. -/
theorem c7_gcs_token_expiry_witness :
    ∃ ps, IcebergWriter.init
        [("cloud_provider", "gcs"), ("metastore_url", "http://ms"),
         ("warehouse_path", "gs://wh"), ("secret_file_path", "/sa.json"),
         ("project-is", "proj")] 1700000000 credLoaderExample = .ok ps ∧
      ("gcs.oauth2.token-expires-at", PVal.int (1700000000 + 10000)) ∈ ps ∧
      ("gcs.oauth2.token",
        PVal.cred (get_access_token credLoaderExample
          (Connection.getD
            [("cloud_provider", "gcs"), ("metastore_url", "http://ms"),
             ("warehouse_path", "gs://wh"), ("secret_file_path", "/sa.json"),
             ("project-is", "proj")] "secret_file_path" "")
          (Connection.get
            [("cloud_provider", "gcs"), ("metastore_url", "http://ms"),
             ("warehouse_path", "gs://wh"), ("secret_file_path", "/sa.json"),
             ("project-is", "proj")] "scopes"))) ∈ ps :=
  c7_gcs_token_expiry
    [("cloud_provider", "gcs"), ("metastore_url", "http://ms"),
     ("warehouse_path", "gs://wh"), ("secret_file_path", "/sa.json"),
     ("project-is", "proj")] 1700000000 credLoaderExample (by decide)

/-- C8: with a complete s3 connection the constructor succeeds, and a write of
a non-empty table to "ns.tbl" in append mode over a catalog whose operations
succeed performs exactly one append call (and no overwrite call) and raises no
exception. -/
theorem c8_s3_append_end_to_end (conn : Connection) (now : Int) (load : CredLoader)
    (t : PyArrowTable) (tbl : IcebergTable)
    (hp : Connection.get conn "cloud_provider" = some "s3") (ht : 0 < t.numRows) :
    (∃ ps, IcebergWriter.init conn now load = .ok ps) ∧
    write (.pyarrow t) "ns.tbl" "append" (.ok tbl)
      = ⟨[.createCall "ns.tbl", .appendCall (some tbl) t], .ok ()⟩ ∧
    ((write (.pyarrow t) "ns.tbl" "append" (.ok tbl)).actions.countP Action.isAppend) = 1 ∧
    ((write (.pyarrow t) "ns.tbl" "append" (.ok tbl)).actions.countP Action.isOverwrite) = 0 := by
  have h0 : ¬ t.numRows = 0 := Nat.pos_iff_ne_zero.mp ht
  refine ⟨⟨[("uri", .str (Connection.getD conn "metastore_url" "")),
            ("s3.access-key-id", .str (Connection.getD conn "aws_access_key_id" "")),
            ("s3.secret-access-key", .str (Connection.getD conn "aws_secret_access_key" "")),
            ("s3.region", .str (Connection.getD conn "region" "ap-south-1"))],
          by simp [IcebergWriter.init, hp]⟩, ?_, ?_, ?_⟩ <;>
    simp [write, validate_data, create_table_from_pyarrow, h0, List.countP,
      List.countP.go, Action.isAppend, Action.isOverwrite]

/-- Witness for C8 at the complete s3 connection example and a one-row table. -/
theorem c8_s3_append_end_to_end_witness :
    (∃ ps, IcebergWriter.init s3ConnExample 0 credLoaderExample = .ok ps) ∧
    write (.pyarrow (PyArrowTable.mk 1 "sch")) "ns.tbl" "append" (.ok (IcebergTable.mk "tb"))
      = ⟨[.createCall "ns.tbl", .appendCall (some (IcebergTable.mk "tb")) (PyArrowTable.mk 1 "sch")],
         .ok ()⟩ ∧
    ((write (.pyarrow (PyArrowTable.mk 1 "sch")) "ns.tbl" "append"
        (.ok (IcebergTable.mk "tb"))).actions.countP Action.isAppend) = 1 ∧
    ((write (.pyarrow (PyArrowTable.mk 1 "sch")) "ns.tbl" "append"
        (.ok (IcebergTable.mk "tb"))).actions.countP Action.isOverwrite) = 0 :=
  c8_s3_append_end_to_end s3ConnExample 0 credLoaderExample
    (PyArrowTable.mk 1 "sch") (IcebergTable.mk "tb") (by decide) (by decide)

/-- C3 counterexample: with SOURCES__MONGODB__COLLECTION_NAMES unset (and
everything else unset too), the pipeline's collection-name lookup raises an
AttributeError on None — not a ValueError configuration error — and its
message does not contain the variable's name. -/
theorem c3_collection_names_counterexample :
    collection_names_from_env (fun _ => none)
      = .error (.attributeError "'NoneType' object has no attribute 'split'") ∧
    (∀ msg, collection_names_from_env (fun _ => none) ≠ .error (.valueError msg)) ∧
    ¬ ("SOURCES__MONGODB__COLLECTION_NAMES".toList
        <:+: "'NoneType' object has no attribute 'split'".toList) := by
  refine ⟨rfl, fun msg => by simp [collection_names_from_env], by decide⟩

/-- C3 amended: omitting a required environment variable that is read through
`get_env_var` — the Iceberg destination config variables and the selected
provider's secret variables — raises a ValueError naming that variable. The
collection-names variable is read bare, so it is excluded. -/
theorem c3_required_env_vars (env : Env) (k : String) :
    (k ∈ destRequiredVars → env k = none →
      (∀ k2 ∈ destRequiredVars, k2 ≠ k → (env k2).isSome) →
      get_iceberg_destination_config env = .error (.valueError (requiredMsg k))) ∧
    (∀ p ∈ ["gcs", "abfss", "s3"], k ∈ credsRequiredVars p → env k = none →
      (∀ k2 ∈ credsRequiredVars p, k2 ≠ k → (env k2).isSome) →
      get_iceberg_credentials p env = .error (.valueError (requiredMsg k))) := by
  constructor
  · intro hk hnone hsome
    simp only [destRequiredVars, List.mem_cons, List.mem_singleton, List.not_mem_nil,
      or_false] at hk
    rcases hk with rfl | rfl | rfl | rfl
    · simp [get_iceberg_destination_config, get_env_var, hnone, requiredMsg, Bind.bind, Except.bind, Functor.map, Except.map]
    · obtain ⟨v1, hv1⟩ := Option.isSome_iff_exists.mp
        (hsome "DESTINATION__ICEBERG__CONFIG__CLOUD_PROVIDER" (by decide) (by decide))
      simp [get_iceberg_destination_config, get_env_var, hv1, hnone, requiredMsg, Bind.bind, Except.bind, Functor.map, Except.map]
    · obtain ⟨v1, hv1⟩ := Option.isSome_iff_exists.mp
        (hsome "DESTINATION__ICEBERG__CONFIG__CLOUD_PROVIDER" (by decide) (by decide))
      obtain ⟨v2, hv2⟩ := Option.isSome_iff_exists.mp
        (hsome "DESTINATION__ICEBERG__CONFIG__CATALOG" (by decide) (by decide))
      simp [get_iceberg_destination_config, get_env_var, hv1, hv2, hnone, requiredMsg, Bind.bind, Except.bind, Functor.map, Except.map]
    · obtain ⟨v1, hv1⟩ := Option.isSome_iff_exists.mp
        (hsome "DESTINATION__ICEBERG__CONFIG__CLOUD_PROVIDER" (by decide) (by decide))
      obtain ⟨v2, hv2⟩ := Option.isSome_iff_exists.mp
        (hsome "DESTINATION__ICEBERG__CONFIG__CATALOG" (by decide) (by decide))
      obtain ⟨v3, hv3⟩ := Option.isSome_iff_exists.mp
        (hsome "DESTINATION__ICEBERG__CONFIG__WAREHOUSE_PATH" (by decide) (by decide))
      simp [get_iceberg_destination_config, get_env_var, hv1, hv2, hv3, hnone, requiredMsg, Bind.bind, Except.bind, Functor.map, Except.map]
  · intro p hp hk hnone hsome
    simp only [List.mem_cons, List.mem_singleton, List.not_mem_nil, or_false] at hp
    rcases hp with rfl | rfl | rfl
    · have hk2 : k = "GCS__CREDENTIALS__PROJECT_ID"
          ∨ k = "GCS__CREDENTIALS__SECRET_FILE_PATH" := by
        simpa [credsRequiredVars] using hk
      rcases hk2 with rfl | rfl
      · simp [get_iceberg_credentials, get_env_var, hnone, requiredMsg, Bind.bind, Except.bind, Functor.map, Except.map]
      · obtain ⟨v1, hv1⟩ := Option.isSome_iff_exists.mp
          (hsome "GCS__CREDENTIALS__PROJECT_ID" (by decide) (by decide))
        simp [get_iceberg_credentials, get_env_var, hv1, hnone, requiredMsg, Bind.bind, Except.bind, Functor.map, Except.map]
    · have hk2 : k = "ABFSS__CREDENTIALS__AZUREENDPOINTSUFFIX"
          ∨ k = "ABFSS__CREDENTIALS__AZURESTORAGEACCOUNTNAME"
          ∨ k = "ABFSS__CREDENTIALS__AZURESTORAGEACCOUNTKEY" := by
        simpa [credsRequiredVars] using hk
      rcases hk2 with rfl | rfl | rfl
      · simp [get_iceberg_credentials, get_env_var, hnone, requiredMsg, Bind.bind, Except.bind, Functor.map, Except.map]
      · obtain ⟨v1, hv1⟩ := Option.isSome_iff_exists.mp
          (hsome "ABFSS__CREDENTIALS__AZUREENDPOINTSUFFIX" (by decide) (by decide))
        simp [get_iceberg_credentials, get_env_var, hv1, hnone, requiredMsg, Bind.bind, Except.bind, Functor.map, Except.map]
      · obtain ⟨v1, hv1⟩ := Option.isSome_iff_exists.mp
          (hsome "ABFSS__CREDENTIALS__AZUREENDPOINTSUFFIX" (by decide) (by decide))
        obtain ⟨v2, hv2⟩ := Option.isSome_iff_exists.mp
          (hsome "ABFSS__CREDENTIALS__AZURESTORAGEACCOUNTNAME" (by decide) (by decide))
        simp [get_iceberg_credentials, get_env_var, hv1, hv2, hnone, requiredMsg, Bind.bind, Except.bind, Functor.map, Except.map]
    · have hk2 : k = "S3__CREDENTIALS__AWS_ACCESS_KEY_ID"
          ∨ k = "S3__CREDENTIALS__AWS_SECRET_ACCESS_KEY" := by
        simpa [credsRequiredVars] using hk
      rcases hk2 with rfl | rfl
      · simp [get_iceberg_credentials, get_env_var, hnone, requiredMsg, Bind.bind, Except.bind, Functor.map, Except.map]
      · obtain ⟨v1, hv1⟩ := Option.isSome_iff_exists.mp
          (hsome "S3__CREDENTIALS__AWS_ACCESS_KEY_ID" (by decide) (by decide))
        simp [get_iceberg_credentials, get_env_var, hv1, hnone, requiredMsg, Bind.bind, Except.bind, Functor.map, Except.map]

/-- Witness for C3 amended: an environment in which exactly the catalog
variable is unset makes the destination-config accessor raise the ValueError
naming it. -/
theorem c3_required_env_vars_witness :
    get_iceberg_destination_config
      (fun s => if s = "DESTINATION__ICEBERG__CONFIG__CATALOG" then none else some "v")
      = .error (.valueError (requiredMsg "DESTINATION__ICEBERG__CONFIG__CATALOG")) :=
  (c3_required_env_vars
    (fun s => if s = "DESTINATION__ICEBERG__CONFIG__CATALOG" then none else some "v")
    "DESTINATION__ICEBERG__CONFIG__CATALOG").1 (by decide) (by decide) (by decide)

/-- Environment holding a full gcs configuration, with the optional TABLE and
NAMESPACE variables left unset. -/
def exampleGcsEnv : Env := fun s =>
  if s = "DESTINATION__ICEBERG__CONFIG__CLOUD_PROVIDER" then some "gcs"
  else if s = "DESTINATION__ICEBERG__CONFIG__CATALOG" then some "rest"
  else if s = "DESTINATION__ICEBERG__CONFIG__WAREHOUSE_PATH" then some "gs://wh"
  else if s = "DESTINATION__ICEBERG__CONFIG__METASTORE_URL" then some "http://ms"
  else if s = "GCS__CREDENTIALS__PROJECT_ID" then some "proj"
  else if s = "GCS__CREDENTIALS__SECRET_FILE_PATH" then some "/sa.json"
  else none

/-- C9: the gcs credential accessor stores the project identifier under the
key "project-is" while the writer reads "project-id"; every
environment-derived gcs connection therefore carries the project id only
under the misspelt key, and the catalog parameter gcs.project-id is the empty
string regardless of GCS__CREDENTIALS__PROJECT_ID. -/
theorem c9_project_id_key_mismatch (env : Env) (now : Int) (load : CredLoader)
    (c w m pj sf : String)
    (h1 : env "DESTINATION__ICEBERG__CONFIG__CLOUD_PROVIDER" = some "gcs")
    (h2 : env "DESTINATION__ICEBERG__CONFIG__CATALOG" = some c)
    (h3 : env "DESTINATION__ICEBERG__CONFIG__WAREHOUSE_PATH" = some w)
    (h4 : env "DESTINATION__ICEBERG__CONFIG__METASTORE_URL" = some m)
    (h5 : env "GCS__CREDENTIALS__PROJECT_ID" = some pj)
    (h6 : env "GCS__CREDENTIALS__SECRET_FILE_PATH" = some sf) :
    ∃ conn, buildIcebergConnection env = .ok conn ∧
      Connection.get conn "project-is" = some pj ∧
      Connection.get conn "project-id" = none ∧
      ∃ ps, IcebergWriter.init conn now load = .ok ps ∧
        ("gcs.project-id", PVal.str "") ∈ ps := by
  refine ⟨[("project-is", pj), ("secret_file_path", sf),
           ("cloud_provider", "gcs"), ("catalog", c), ("warehouse_path", w),
           ("metastore_url", m),
           ("table", (env "DESTINATION__ICEBERG__CONFIG__TABLE").getD "dlt_default_table"),
           ("namespace",
             (env "DESTINATION__ICEBERG__CONFIG__NAMESPACE").getD "dlt_default_namespace")],
    ?_, by simp [Connection.get], by simp [Connection.get], ?_⟩
  · simp only [buildIcebergConnection, get_iceberg_destination_config, get_iceberg_credentials,
      Bind.bind, Except.bind, get_env_var_with_default]
    simp [get_env_var, h1, h2, h3, h4, h5, h6, Connection.merge, Connection.getD,
      Connection.get, Functor.map, Except.map, pure, Except.pure]
  · refine ⟨[("py-io-impl", .str "pyiceberg.io.fsspec.FsspecFileIO"),
             ("uri", .str m),
             ("gcs.project-id", .str ""),
             ("gcs.default-bucket-location", .str w),
             ("gcs.oauth2.token-expires-at", .int (now + 10000)),
             ("gcs.oauth2.token", .cred (get_access_token load sf none))], ?_, by simp⟩
    simp [IcebergWriter.init, Connection.get, Connection.getD]

/-- Witness for C9 at the example gcs environment. -/
theorem c9_project_id_key_mismatch_witness :
    ∃ conn, buildIcebergConnection exampleGcsEnv = .ok conn ∧
      Connection.get conn "project-is" = some "proj" ∧
      Connection.get conn "project-id" = none ∧
      ∃ ps, IcebergWriter.init conn 1700000000 credLoaderExample = .ok ps ∧
        ("gcs.project-id", PVal.str "") ∈ ps :=
  c9_project_id_key_mismatch exampleGcsEnv 1700000000 credLoaderExample
    "rest" "gs://wh" "http://ms" "proj" "/sa.json"
    (by decide) (by decide) (by decide) (by decide) (by decide) (by decide)

/-- C10: the destination callback always hands mode "overwrite" to the
writer: any successful write it performs makes no append invocation and
exactly one overwrite invocation, and executing its catalog trace on any
prior table contents leaves exactly the current batch. -/
theorem c10_overwrite_replaces (env : Env) (now : Int) (load : CredLoader)
    (b : PyArrowTable) (dataName : Option String) (tbl : IcebergTable)
    (prior : TableContents) (path : String) (wr : WriteResult)
    (hr : iceberg_insert env now load b dataName (.ok tbl) = .ok (path, wr))
    (hok : wr.outcome = .ok ()) :
    wr = write (.pyarrow b) path "overwrite" (.ok tbl) ∧
    wr.actions.countP Action.isAppend = 0 ∧
    wr.actions.countP Action.isOverwrite = 1 ∧
    execTrace prior wr.actions = [b] := by
  cases hc : buildIcebergConnection env with
  | error e => simp [iceberg_insert, hc, Bind.bind, Except.bind] at hr
  | ok conn =>
    cases hi : IcebergWriter.init conn now load with
    | error e => simp [iceberg_insert, hc, hi, Bind.bind, Except.bind] at hr
    | ok ps =>
      simp only [iceberg_insert, hc, hi, Bind.bind, Except.bind, pure, Except.pure,
        Except.ok.injEq, Prod.mk.injEq] at hr
      obtain ⟨hpath, hwr⟩ := hr
      by_cases h0 : b.numRows = 0
      · rw [← hwr] at hok
        simp [write, validate_data, h0] at hok
      · subst hwr
        refine ⟨by rw [hpath], ?_, ?_, ?_⟩ <;>
          simp [write, validate_data, create_table_from_pyarrow, h0, execTrace,
            execAction, List.countP, List.countP.go, Action.isAppend, Action.isOverwrite]

/-- Environment holding a full s3 configuration, with the optional TABLE,
NAMESPACE and REGION variables left unset. -/
def exampleS3Env : Env := fun s =>
  if s = "DESTINATION__ICEBERG__CONFIG__CLOUD_PROVIDER" then some "s3"
  else if s = "DESTINATION__ICEBERG__CONFIG__CATALOG" then some "rest"
  else if s = "DESTINATION__ICEBERG__CONFIG__WAREHOUSE_PATH" then some "s3://wh"
  else if s = "DESTINATION__ICEBERG__CONFIG__METASTORE_URL" then some "http://ms"
  else if s = "S3__CREDENTIALS__AWS_ACCESS_KEY_ID" then some "AK"
  else if s = "S3__CREDENTIALS__AWS_SECRET_ACCESS_KEY" then some "SK"
  else none

/-- Witness for C10 at the example s3 environment and a one-row batch. -/
theorem c10_overwrite_replaces_witness :
    write (.pyarrow (PyArrowTable.mk 1 "sch")) "dlt_default_namespace.batch" "overwrite"
        (.ok (IcebergTable.mk "tb"))
      = write (.pyarrow (PyArrowTable.mk 1 "sch")) "dlt_default_namespace.batch" "overwrite"
          (.ok (IcebergTable.mk "tb")) ∧
    (write (.pyarrow (PyArrowTable.mk 1 "sch")) "dlt_default_namespace.batch" "overwrite"
        (.ok (IcebergTable.mk "tb"))).actions.countP Action.isAppend = 0 ∧
    (write (.pyarrow (PyArrowTable.mk 1 "sch")) "dlt_default_namespace.batch" "overwrite"
        (.ok (IcebergTable.mk "tb"))).actions.countP Action.isOverwrite = 1 ∧
    execTrace [PyArrowTable.mk 2 "old"]
        (write (.pyarrow (PyArrowTable.mk 1 "sch")) "dlt_default_namespace.batch" "overwrite"
          (.ok (IcebergTable.mk "tb"))).actions
      = [PyArrowTable.mk 1 "sch"] :=
  c10_overwrite_replaces exampleS3Env 0 credLoaderExample
    (PyArrowTable.mk 1 "sch") (some "batch") (IcebergTable.mk "tb")
    [PyArrowTable.mk 2 "old"] "dlt_default_namespace.batch"
    (write (.pyarrow (PyArrowTable.mk 1 "sch")) "dlt_default_namespace.batch" "overwrite"
      (.ok (IcebergTable.mk "tb")))
    (by decide) (by decide)

end DltIceberg
